import Mathlib

/-!
Shallow embedding of the `vault-mvp` Solana program
(`programs/vault-mvp/src/{constants,state,errors,instructions}.rs`).

Modelling conventions:
* Rust unsigned integers are modelled as `Nat`; an `as u64` cast is an
  explicit `% 2 ^ 64` (`u64cast`), matching Rust's truncating `as` semantics.
* `checked_*` arithmetic returns `Option` in Rust.  A failed checked op is
  modelled as an explicit bound guard: `a.checked_sub(b)` is `None` iff
  `a < b`, `checked_add`/`checked_mul` are `None` iff the exact result
  reaches the type's modulus.  An `unwrap()` on `None` panics, which aborts
  the whole transaction; the host ledger then discards every state change.
  Both a returned `ErrorCode` and a panic are therefore modelled as
  `Except TxError`, with `TxError.panic` for the panicking unwraps.  The
  program is built with `overflow-checks` enabled (the standard Anchor
  release profile; the design relies on no wraparound for plain
  arithmetic, cf. the error-handling design), so a plain `u16 + u16`
  overflow also aborts.
* `Clock::get()?.unix_timestamp` is passed in as an explicit `now : Int`.
* Token-account balances live outside the `Vault` record; where an
  instruction reads them they are passed as explicit parameters.
* `msg!` logging and `emit!` events do not affect state and are dropped.
-/

set_option autoImplicit false

namespace VaultMvp

/-! ## Machine-integer moduli -/

def U16_MOD : Nat := 2 ^ 16
def U64_MOD : Nat := 2 ^ 64
def U128_MOD : Nat := 2 ^ 128

/-- Rust `as u64` cast from a wider unsigned value: truncate mod `2^64`. -/
def u64cast (n : Nat) : Nat := n % U64_MOD

/-! ## Constants (`constants.rs`) -/

def MAX_BPS : Nat := 10000
def DEFAULT_VAULT_CREATION_FEE_USDC : Nat := 10000000
def MAX_ENTRY_EXIT_BPS_LIMIT : Nat := 1000
def MAX_MANAGEMENT_BPS_LIMIT : Nat := 2000
def MIN_UNDERLYING_ASSETS : Nat := 1
def MAX_UNDERLYING_ASSETS : Nat := 240
def MAX_ACCOUNT_SIZE : Nat := 10240000
def MAX_VAULT_NAME_LENGTH : Nat := 50
def MAX_VAULT_SYMBOL_LENGTH : Nat := 30

/-- `SECONDS_PER_YEAR` as defined locally in `accrue_management_fees`. -/
def SECONDS_PER_YEAR : Nat := 365 * 24 * 60 * 60

/-! ## Errors (`errors.rs`) -/

inductive ErrorCode where
  | FeesTooHigh
  | InvalidFeeRange
  | VaultNameTooLong
  | VaultSymbolTooLong
  | InvalidUnderlyingAssets
  | AccountTooLarge
  | InvalidManagementFees
  | InvalidBpsSum
  | VaultNotFound
  | VaultNotActive
  | InvalidAmount
  | FactoryNotActive
  | Unauthorized
  | InsufficientVaultTokens
  | InsufficientFunds
  | InvalidMetadataProgram
  deriving DecidableEq, Repr

/-- A failed transaction: either an explicit program error code or a Rust
panic (from `unwrap()` / arithmetic overflow with overflow-checks on).
Either way the ledger discards every state change of the transaction. -/
inductive TxError where
  | code (e : ErrorCode)
  | panic
  deriving DecidableEq, Repr

/-! ## State (`state.rs`) -/

inductive VaultState where
  | Active
  | Paused
  | Closed
  deriving DecidableEq, Repr

inductive FactoryState where
  | Active
  | Paused
  | Deprecated
  deriving DecidableEq, Repr

structure UnderlyingAsset where
  mint_address : Nat
  mint_bps : Nat
  deriving DecidableEq, Repr

structure Factory where
  admin : Nat
  fee_recipient : Nat
  vault_count : Nat
  state : FactoryState
  entry_fee_bps : Nat
  exit_fee_bps : Nat
  vault_creation_fee_usdc : Nat
  min_management_fee_bps : Nat
  max_management_fee_bps : Nat
  vault_creator_fee_ratio_bps : Nat
  platform_fee_ratio_bps : Nat
  deriving DecidableEq, Repr

structure Vault where
  vault_index : Nat
  admin : Nat
  vault_name : String
  vault_symbol : String
  underlying_assets : List UnderlyingAsset
  management_fees : Nat
  state : VaultState
  total_assets : Nat
  total_supply : Nat
  created_at : Int
  last_fee_accrual_ts : Int
  accrued_management_fees_usdc : Nat
  deriving DecidableEq, Repr

/-- `Vault::calculate_space` from `state.rs`. -/
def Vault.calculate_space (num_assets : Nat) : Nat :=
  8 + 1 + 4 + 32 + 32 + (4 + 32) + (4 + 32) + (4 + num_assets * (32 + 2)) +
    2 + 1 + 8 + 8 + 8 + 8 + 8

/-- `Vault::INIT_SPACE` from `state.rs`. -/
def Vault.INIT_SPACE : Nat := Vault.calculate_space MAX_UNDERLYING_ASSETS

/-! ## Management-fee accrual (`accrue_management_fees`, instructions.rs:427) -/

/-- The fee amount computed inside `accrue_management_fees`:
`((total_assets * annual_bps * elapsed) / (MAX_BPS * SECONDS_PER_YEAR)) as u64`.
For `now ≤ last_fee_accrual_ts` the `Int.toNat` of the elapsed time is `0`,
so the value is `0`. -/
def accruedAmount (v : Vault) (now : Int) : Nat :=
  u64cast (v.total_assets * v.management_fees * (now - v.last_fee_accrual_ts).toNat /
    (MAX_BPS * SECONDS_PER_YEAR))

/-- `accrue_management_fees` (instructions.rs:427-483).

* early return when `now <= last_fee_accrual_ts` (and the redundant
  `elapsed <= 0` check);
* when `annual_bps == 0 || total_assets == 0`, only the timestamp moves;
* the two `checked_mul` calls on the fee numerator are mapped to
  `ErrorCode::InvalidAmount` by `ok_or` on u128 overflow (the denominator
  `MAX_BPS * SECONDS_PER_YEAR` is a constant product that cannot overflow,
  and the `checked_div(..).unwrap_or(0)` never takes its fallback since the
  denominator is non-zero);
* `total_assets.checked_sub(accrued).unwrap_or(total_assets)` keeps the old
  value on underflow, and
  `accrued_management_fees_usdc.checked_add(accrued).unwrap_or(..)` keeps
  the old value on overflow;
* `last_fee_accrual_ts = now` in every non-early-return success path. -/
def accrueManagementFees (v : Vault) (now : Int) : Except TxError Vault :=
  if now ≤ v.last_fee_accrual_ts then .ok v
  else if now - v.last_fee_accrual_ts ≤ 0 then .ok v
  else if v.management_fees = 0 ∨ v.total_assets = 0 then
    .ok { v with last_fee_accrual_ts := now }
  else if U128_MOD ≤ v.total_assets * v.management_fees then
    .error (.code .InvalidAmount)
  else if U128_MOD ≤ v.total_assets * v.management_fees * (now - v.last_fee_accrual_ts).toNat then
    .error (.code .InvalidAmount)
  else if 0 < accruedAmount v now then
    .ok { v with
      total_assets :=
        if accruedAmount v now ≤ v.total_assets then v.total_assets - accruedAmount v now
        else v.total_assets
      accrued_management_fees_usdc :=
        if v.accrued_management_fees_usdc + accruedAmount v now < U64_MOD then
          v.accrued_management_fees_usdc + accruedAmount v now
        else v.accrued_management_fees_usdc
      last_fee_accrual_ts := now }
  else .ok { v with last_fee_accrual_ts := now }

/-! ## Factory instructions (`initialize_factory`, `update_factory_fees`) -/

/-- `initialize_factory` (instructions.rs:33-99).  The five `require!`
validations in source order, then the freshly initialized factory record.
The `vault_creator_fee_ratio_bps + platform_fee_ratio_bps` sum is a plain
`u16` addition, which aborts on overflow before the comparison. -/
def initializeFactory (adminKey feeRecipientKey : Nat)
    (entry_fee_bps exit_fee_bps vault_creation_fee_usdc
      min_management_fee_bps max_management_fee_bps
      vault_creator_fee_ratio_bps platform_fee_ratio_bps : Nat) :
    Except TxError Factory :=
  if ¬ (entry_fee_bps ≤ MAX_ENTRY_EXIT_BPS_LIMIT ∧
        exit_fee_bps ≤ MAX_ENTRY_EXIT_BPS_LIMIT) then .error (.code .FeesTooHigh)
  else if ¬ (min_management_fee_bps ≤ max_management_fee_bps) then
    .error (.code .InvalidFeeRange)
  else if ¬ (max_management_fee_bps ≤ MAX_MANAGEMENT_BPS_LIMIT) then
    .error (.code .FeesTooHigh)
  else if U16_MOD ≤ vault_creator_fee_ratio_bps + platform_fee_ratio_bps then
    .error .panic
  else if ¬ (vault_creator_fee_ratio_bps + platform_fee_ratio_bps = MAX_BPS) then
    .error (.code .InvalidFeeRange)
  else if ¬ (0 < vault_creator_fee_ratio_bps ∧ 0 < platform_fee_ratio_bps) then
    .error (.code .InvalidFeeRange)
  else
    .ok { admin := adminKey
          fee_recipient := feeRecipientKey
          vault_count := 0
          state := FactoryState.Active
          entry_fee_bps := entry_fee_bps
          exit_fee_bps := exit_fee_bps
          vault_creation_fee_usdc := vault_creation_fee_usdc
          min_management_fee_bps := min_management_fee_bps
          max_management_fee_bps := max_management_fee_bps
          vault_creator_fee_ratio_bps := vault_creator_fee_ratio_bps
          platform_fee_ratio_bps := platform_fee_ratio_bps }

/-- `update_factory_fees` (instructions.rs:338-396).  Identical validations
to `initialize_factory`, then overwrites the fee fields of the existing
factory record. -/
def updateFactoryFees (f : Factory)
    (entry_fee_bps exit_fee_bps vault_creation_fee_usdc
      min_management_fee_bps max_management_fee_bps
      vault_creator_fee_ratio_bps platform_fee_ratio_bps : Nat) :
    Except TxError Factory :=
  if ¬ (entry_fee_bps ≤ MAX_ENTRY_EXIT_BPS_LIMIT ∧
        exit_fee_bps ≤ MAX_ENTRY_EXIT_BPS_LIMIT) then .error (.code .FeesTooHigh)
  else if ¬ (min_management_fee_bps ≤ max_management_fee_bps) then
    .error (.code .InvalidFeeRange)
  else if ¬ (max_management_fee_bps ≤ MAX_MANAGEMENT_BPS_LIMIT) then
    .error (.code .FeesTooHigh)
  else if U16_MOD ≤ vault_creator_fee_ratio_bps + platform_fee_ratio_bps then
    .error .panic
  else if ¬ (vault_creator_fee_ratio_bps + platform_fee_ratio_bps = MAX_BPS) then
    .error (.code .InvalidFeeRange)
  else if ¬ (0 < vault_creator_fee_ratio_bps ∧ 0 < platform_fee_ratio_bps) then
    .error (.code .InvalidFeeRange)
  else
    .ok { f with
          entry_fee_bps := entry_fee_bps
          exit_fee_bps := exit_fee_bps
          vault_creation_fee_usdc := vault_creation_fee_usdc
          min_management_fee_bps := min_management_fee_bps
          max_management_fee_bps := max_management_fee_bps
          vault_creator_fee_ratio_bps := vault_creator_fee_ratio_bps
          platform_fee_ratio_bps := platform_fee_ratio_bps }

/-- Ledger commit semantics for `update_factory_fees`: a failed transaction
is discarded wholesale, so the stored factory record is unchanged. -/
def updateFactoryFeesApply (f : Factory)
    (entry_fee_bps exit_fee_bps vault_creation_fee_usdc
      min_management_fee_bps max_management_fee_bps
      vault_creator_fee_ratio_bps platform_fee_ratio_bps : Nat) : Factory :=
  match updateFactoryFees f entry_fee_bps exit_fee_bps vault_creation_fee_usdc
      min_management_fee_bps max_management_fee_bps
      vault_creator_fee_ratio_bps platform_fee_ratio_bps with
  | .ok f' => f'
  | .error _ => f

/-! ## `create_vault` (instructions.rs:101-335) -/

/-- `create_vault`: validations in source order, then the updated factory
(`vault_count` incremented with a checked u32 add), the freshly initialized
vault (state `Active`, zeroed ledger, accrual clock at `now`, then the seed
supply `1_000_000` minted to the vault itself — this `checked_add` starts
from the just-zeroed `total_supply` and cannot fail), and the creation fee
actually charged (falls back to `DEFAULT_VAULT_CREATION_FEE_USDC` when the
configured `vault_creation_fee_usdc` is `0`).  The `total_bps` iterator sum
is a `u16` sum that aborts on overflow. -/
def createVault (factory : Factory) (adminKey : Nat) (now : Int)
    (vault_name vault_symbol : String)
    (underlying_assets : List UnderlyingAsset) (management_fees : Nat) :
    Except TxError (Factory × Vault × Nat) :=
  if ¬ (vault_name.length ≤ MAX_VAULT_NAME_LENGTH) then
    .error (.code .VaultNameTooLong)
  else if ¬ (vault_symbol.length ≤ MAX_VAULT_SYMBOL_LENGTH) then
    .error (.code .VaultSymbolTooLong)
  else if ¬ (MIN_UNDERLYING_ASSETS ≤ underlying_assets.length ∧
             underlying_assets.length ≤ MAX_UNDERLYING_ASSETS) then
    .error (.code .InvalidUnderlyingAssets)
  else if ¬ (Vault.calculate_space underlying_assets.length ≤ MAX_ACCOUNT_SIZE) then
    .error (.code .AccountTooLarge)
  else if ¬ (Vault.calculate_space underlying_assets.length ≤ Vault.INIT_SPACE) then
    .error (.code .AccountTooLarge)
  else if ¬ (factory.min_management_fee_bps ≤ management_fees ∧
             management_fees ≤ factory.max_management_fee_bps) then
    .error (.code .InvalidManagementFees)
  else if U16_MOD ≤ (underlying_assets.map (·.mint_bps)).sum then .error .panic
  else if ¬ ((underlying_assets.map (·.mint_bps)).sum = MAX_BPS) then
    .error (.code .InvalidBpsSum)
  else if ¬ (factory.vault_count + 1 < 2 ^ 32) then .error .panic
  else
    .ok ({ factory with vault_count := factory.vault_count + 1 },
         { vault_index := factory.vault_count
           admin := adminKey
           vault_name := vault_name
           vault_symbol := vault_symbol
           underlying_assets := underlying_assets
           management_fees := management_fees
           state := VaultState.Active
           total_assets := 0
           total_supply := 1000000
           created_at := now
           last_fee_accrual_ts := now
           accrued_management_fees_usdc := 0 },
         if factory.vault_creation_fee_usdc = 0 then DEFAULT_VAULT_CREATION_FEE_USDC
         else factory.vault_creation_fee_usdc)

/-! ## `deposit` (instructions.rs:549-701) -/

structure DepositResult where
  vault : Vault
  entry_fee : Nat
  deposit_amount_after_fees : Nat
  vault_tokens_to_mint : Nat
  deriving DecidableEq, Repr

/-- The `entry_fee` local of `deposit`:
`((amount * entry_fee_bps) / MAX_BPS) as u64` (the checked u128 mul is
guarded at the call site, the checked div is by the non-zero constant
`MAX_BPS`). -/
def entryFeeAmount (factory : Factory) (amount : Nat) : Nat :=
  u64cast (amount * factory.entry_fee_bps / MAX_BPS)

/-- The `deposit_amount_after_fees` local of `deposit`:
`amount.checked_sub(entry_fee).unwrap()` (underflow guarded at call site). -/
def depositNet (factory : Factory) (amount : Nat) : Nat :=
  amount - entryFeeAmount factory amount

/-- The `vault_tokens_to_mint` local of `deposit`: the net amount itself
when `etf_share_price == 0` (1:1 fallback), else
`((net * scale) / price) as u64` with `scale = 10u128.pow(decimals)`. -/
def depositMint (factory : Factory) (mintDecimals amount etf_share_price : Nat) : Nat :=
  if etf_share_price = 0 then depositNet factory amount
  else u64cast (depositNet factory amount * 10 ^ mintDecimals / etf_share_price)

/-- `deposit`: accrues management fees, validates, computes the entry fee
and net amount, mints `depositMint` vault tokens, and adds the net amount
/ the minted amount to `total_assets` / `total_supply` with checked adds. -/
def deposit (factory : Factory) (v0 : Vault) (mintDecimals : Nat) (now : Int)
    (amount etf_share_price : Nat) : Except TxError DepositResult :=
  match accrueManagementFees v0 now with
  | .error e => .error e
  | .ok v =>
    if ¬ (v.state = VaultState.Active) then .error (.code .VaultNotActive)
    else if ¬ (0 < amount) then .error (.code .InvalidAmount)
    else if ¬ (factory.state = FactoryState.Active) then .error (.code .FactoryNotActive)
    else if U128_MOD ≤ amount * factory.entry_fee_bps then .error .panic
    else if ¬ (entryFeeAmount factory amount ≤ amount) then .error .panic
    else if ¬ (10 ^ mintDecimals < U128_MOD) then .error .panic
    else if ¬ (etf_share_price = 0) ∧
        U128_MOD ≤ depositNet factory amount * 10 ^ mintDecimals then .error .panic
    else if ¬ (v.total_assets + depositNet factory amount < U64_MOD) then .error .panic
    else if ¬ (v.total_supply + depositMint factory mintDecimals amount etf_share_price
        < U64_MOD) then .error .panic
    else
      .ok { vault := { v with
              total_assets := v.total_assets + depositNet factory amount
              total_supply := v.total_supply +
                depositMint factory mintDecimals amount etf_share_price }
            entry_fee := entryFeeAmount factory amount
            deposit_amount_after_fees := depositNet factory amount
            vault_tokens_to_mint := depositMint factory mintDecimals amount etf_share_price }

/-! ## `finalize_redeem` (instructions.rs:908-1032) -/

structure RedeemResult where
  vault : Vault
  user_share_usdc : Nat
  exit_fee : Nat
  net_to_user : Nat
  deriving DecidableEq, Repr

/-- The `user_share_usdc` local of `finalize_redeem`:
`((vault_token_amount * price) / scale) as u64` (checked mul guarded at the
call site, checked div by the non-zero `scale = 10u128.pow(decimals)`). -/
def grossPayout (mintDecimals vault_token_amount etf_share_price : Nat) : Nat :=
  u64cast (vault_token_amount * etf_share_price / 10 ^ mintDecimals)

/-- The `exit_fee` local of `finalize_redeem`:
`((gross * exit_fee_bps) / MAX_BPS) as u64`. -/
def exitFeeAmount (factory : Factory) (gross : Nat) : Nat :=
  u64cast (gross * factory.exit_fee_bps / MAX_BPS)

/-- `finalize_redeem`: accrues management fees, validates, computes the
gross payout `((vault_token_amount * price) / scale) as u64` (checked mul,
checked div by the non-zero `scale = 10u128.pow(vault_mint.decimals)`), the
exit fee `((gross * exit_fee_bps) / MAX_BPS) as u64`,
`net_to_user = gross.checked_sub(exit_fee).unwrap()`, requires the vault
stablecoin balance to cover `net_to_user`, burns the shares and subtracts
supply/assets with checked subs.  `userVaultBalance` /
`vaultStablecoinBalance` are the balances of the user's vault-token
account and the vault's stablecoin account. -/
def finalizeRedeem (factory : Factory) (v0 : Vault) (mintDecimals : Nat)
    (userVaultBalance vaultStablecoinBalance : Nat) (now : Int)
    (vault_token_amount etf_share_price : Nat) : Except TxError RedeemResult :=
  match accrueManagementFees v0 now with
  | .error e => .error e
  | .ok v =>
    if ¬ (0 < vault_token_amount) then .error (.code .InvalidAmount)
    else if ¬ (v.state = VaultState.Active) then .error (.code .VaultNotActive)
    else if ¬ (factory.state = FactoryState.Active) then .error (.code .FactoryNotActive)
    else if ¬ (vault_token_amount ≤ userVaultBalance) then
      .error (.code .InsufficientVaultTokens)
    else if ¬ (0 < v.total_supply) then .error (.code .InvalidAmount)
    else if ¬ (10 ^ mintDecimals < U128_MOD) then .error .panic
    else if U128_MOD ≤ vault_token_amount * etf_share_price then .error .panic
    else if U128_MOD ≤ grossPayout mintDecimals vault_token_amount etf_share_price *
        factory.exit_fee_bps then .error .panic
    else if ¬ (exitFeeAmount factory (grossPayout mintDecimals vault_token_amount etf_share_price) ≤
        grossPayout mintDecimals vault_token_amount etf_share_price) then .error .panic
    else if ¬ (grossPayout mintDecimals vault_token_amount etf_share_price -
        exitFeeAmount factory (grossPayout mintDecimals vault_token_amount etf_share_price) ≤
        vaultStablecoinBalance) then .error (.code .InsufficientFunds)
    else if ¬ (vault_token_amount ≤ v.total_supply) then .error .panic
    else if ¬ (grossPayout mintDecimals vault_token_amount etf_share_price ≤ v.total_assets) then
      .error .panic
    else
      .ok { vault := { v with
              total_supply := v.total_supply - vault_token_amount
              total_assets := v.total_assets -
                grossPayout mintDecimals vault_token_amount etf_share_price }
            user_share_usdc := grossPayout mintDecimals vault_token_amount etf_share_price
            exit_fee := exitFeeAmount factory
              (grossPayout mintDecimals vault_token_amount etf_share_price)
            net_to_user := grossPayout mintDecimals vault_token_amount etf_share_price -
              exitFeeAmount factory (grossPayout mintDecimals vault_token_amount etf_share_price) }

/-! ## `set_vault_paused` (instructions.rs:1034-1062) -/

/-- `set_vault_paused`: pausing is allowed from any state except `Closed`
and is a no-op when already `Paused`; resuming requires the state to be
exactly `Paused`. -/
def setVaultPaused (v : Vault) (paused : Bool) : Except TxError Vault :=
  if paused then
    if v.state = VaultState.Closed then .error (.code .VaultNotActive)
    else if ¬ (v.state = VaultState.Paused) then
      .ok { v with state := VaultState.Paused }
    else .ok v
  else
    if ¬ (v.state = VaultState.Paused) then .error (.code .FactoryNotActive)
    else .ok { v with state := VaultState.Active }

/-! ## `collect_weekly_management_fees` (instructions.rs:485-547) -/

structure CollectResult where
  vault : Vault
  vault_creator_share : Nat
  platform_share : Nat
  deriving DecidableEq, Repr

/-- The vault creator's cut of a management-fee total, as computed
identically in `collect_weekly_management_fees`, `distribute_accrued_fees`
and `claim_management_fee`:
`((total * vault_creator_fee_ratio_bps) / MAX_BPS) as u64` (checked u128
mul guarded at the call site, checked div by the non-zero `MAX_BPS`). -/
def creatorShareOf (factory : Factory) (total : Nat) : Nat :=
  u64cast (total * factory.vault_creator_fee_ratio_bps / MAX_BPS)

/-- `collect_weekly_management_fees`: accrues, early-returns when nothing is
accrued, splits `amount` into
`vault_creator_share = ((amount * vault_creator_fee_ratio_bps) / MAX_BPS) as u64`
(checked u128 mul/div, unwrapped) and
`platform_share = amount.checked_sub(vault_creator_share).unwrap()`, pays
both out in stablecoin (external transfers), and resets the accrued
tracker to `0`. -/
def collectWeeklyManagementFees (factory : Factory) (v0 : Vault) (now : Int) :
    Except TxError CollectResult :=
  match accrueManagementFees v0 now with
  | .error e => .error e
  | .ok v =>
    if v.accrued_management_fees_usdc = 0 then
      .ok { vault := v, vault_creator_share := 0, platform_share := 0 }
    else if U128_MOD ≤ v.accrued_management_fees_usdc * factory.vault_creator_fee_ratio_bps then
      .error .panic
    else if ¬ (creatorShareOf factory v.accrued_management_fees_usdc ≤
        v.accrued_management_fees_usdc) then .error .panic
    else
      .ok { vault := { v with accrued_management_fees_usdc := 0 }
            vault_creator_share := creatorShareOf factory v.accrued_management_fees_usdc
            platform_share := v.accrued_management_fees_usdc -
              creatorShareOf factory v.accrued_management_fees_usdc }

/-! ## `distribute_accrued_fees` (instructions.rs:1231-1390) and
`claim_management_fee` (instructions.rs:1397-1568) -/

structure DistributeResult where
  vault : Vault
  vault_creator_share_usdc : Nat
  platform_share_usdc : Nat
  vault_creator_share_tokens : Nat
  platform_share_tokens : Nat
  deriving DecidableEq, Repr

/-- Share-token equivalent of a USDC amount, as computed in
`distribute_accrued_fees` / `claim_management_fee`: `0` when the USDC amount
is `0`, the USDC amount itself when `share_price == 0` (1:1 fallback), else
`((usdc * scale) / share_price) as u64` with the checked mul mapped to
`ErrorCode::InvalidAmount` (the checked div by the non-zero `share_price`
cannot fail in that branch). -/
def shareTokensFor (usdc scale share_price : Nat) : Except TxError Nat :=
  if ¬ (0 < usdc) then .ok 0
  else if share_price = 0 then .ok usdc
  else if U128_MOD ≤ usdc * scale then .error (.code .InvalidAmount)
  else .ok (u64cast (usdc * scale / share_price))

/-- `distribute_accrued_fees`: takes the off-chain-computed
`management_fees_amount`, splits it by the factory ratios
(`vault_creator_share_usdc = ((total * ratio) / MAX_BPS) as u64` with
unwrapped checked ops,
`platform_share_usdc = total.checked_sub(vault_creator_share_usdc).unwrap()`),
early-returns without minting or resetting when the vault has no supply or
no assets, otherwise mints the share-token equivalents to the creator and
platform, resets `accrued_management_fees_usdc` to `0` and adds the minted
tokens to `total_supply` (checked adds, unwrapped). -/
def distributeAccruedFees (factory : Factory) (v : Vault) (mintDecimals : Nat)
    (share_price management_fees_amount : Nat) : Except TxError DistributeResult :=
  if ¬ (0 < management_fees_amount) then .error (.code .InvalidAmount)
  else if U128_MOD ≤ management_fees_amount * factory.vault_creator_fee_ratio_bps then
    .error .panic
  else if ¬ (creatorShareOf factory management_fees_amount ≤ management_fees_amount) then
    .error .panic
  else if v.total_supply = 0 ∨ v.total_assets = 0 then
    .ok { vault := v
          vault_creator_share_usdc := creatorShareOf factory management_fees_amount
          platform_share_usdc := management_fees_amount -
            creatorShareOf factory management_fees_amount
          vault_creator_share_tokens := 0
          platform_share_tokens := 0 }
  else if ¬ (10 ^ mintDecimals < U128_MOD) then .error .panic
  else
    match shareTokensFor (creatorShareOf factory management_fees_amount)
        (10 ^ mintDecimals) share_price with
    | .error e => .error e
    | .ok vault_creator_share_tokens =>
      match shareTokensFor
          (management_fees_amount - creatorShareOf factory management_fees_amount)
          (10 ^ mintDecimals) share_price with
      | .error e => .error e
      | .ok platform_share_tokens =>
        if ¬ (v.total_supply + vault_creator_share_tokens < U64_MOD) then .error .panic
        else if ¬ (v.total_supply + vault_creator_share_tokens + platform_share_tokens
            < U64_MOD) then .error .panic
        else
          .ok { vault := { v with
                  accrued_management_fees_usdc := 0
                  total_supply :=
                    v.total_supply + vault_creator_share_tokens + platform_share_tokens }
                vault_creator_share_usdc := creatorShareOf factory management_fees_amount
                platform_share_usdc := management_fees_amount -
                  creatorShareOf factory management_fees_amount
                vault_creator_share_tokens := vault_creator_share_tokens
                platform_share_tokens := platform_share_tokens }

/-- `claim_management_fee`: same computation as `distribute_accrued_fees`
(the failed checked ops surface as `ErrorCode::InvalidAmount` via `ok_or`
instead of panicking), restricted to the vault creator as the caller (an
account constraint, not vault-record state). -/
def claimManagementFee (factory : Factory) (v : Vault) (mintDecimals : Nat)
    (share_price management_fees_amount : Nat) : Except TxError DistributeResult :=
  if ¬ (0 < management_fees_amount) then .error (.code .InvalidAmount)
  else if U128_MOD ≤ management_fees_amount * factory.vault_creator_fee_ratio_bps then
    .error (.code .InvalidAmount)
  else if ¬ (creatorShareOf factory management_fees_amount ≤ management_fees_amount) then
    .error (.code .InvalidAmount)
  else if v.total_supply = 0 ∨ v.total_assets = 0 then
    .ok { vault := v
          vault_creator_share_usdc := creatorShareOf factory management_fees_amount
          platform_share_usdc := management_fees_amount -
            creatorShareOf factory management_fees_amount
          vault_creator_share_tokens := 0
          platform_share_tokens := 0 }
  else if ¬ (10 ^ mintDecimals < U128_MOD) then .error .panic
  else
    match shareTokensFor (creatorShareOf factory management_fees_amount)
        (10 ^ mintDecimals) share_price with
    | .error e => .error e
    | .ok creator_share_tokens =>
      match shareTokensFor
          (management_fees_amount - creatorShareOf factory management_fees_amount)
          (10 ^ mintDecimals) share_price with
      | .error e => .error e
      | .ok platform_share_tokens =>
        if ¬ (v.total_supply + creator_share_tokens < U64_MOD) then
          .error (.code .InvalidAmount)
        else if ¬ (v.total_supply + creator_share_tokens + platform_share_tokens
            < U64_MOD) then .error (.code .InvalidAmount)
        else
          .ok { vault := { v with
                  accrued_management_fees_usdc := 0
                  total_supply :=
                    v.total_supply + creator_share_tokens + platform_share_tokens }
                vault_creator_share_usdc := creatorShareOf factory management_fees_amount
                platform_share_usdc := management_fees_amount -
                  creatorShareOf factory management_fees_amount
                vault_creator_share_tokens := creator_share_tokens
                platform_share_tokens := platform_share_tokens }

/-! ## `get_accrued_management_fees` (instructions.rs:1087-1229) -/

/-- The `accrued` local of `get_accrued_management_fees`:
`((gav_usd * management_fees * elapsed) / (MAX_BPS * SECONDS_PER_YEAR)) as u64`. -/
def gavAccruedAmount (v : Vault) (now : Int) (gav_usd : Nat) : Nat :=
  u64cast (gav_usd * v.management_fees * (now - v.last_fee_accrual_ts).toNat /
    (MAX_BPS * SECONDS_PER_YEAR))

/-- `get_accrued_management_fees`: the live gross asset value is computed
from external token-account balances and caller-supplied prices (data that
lives outside the `Vault` record; the length/mint validations on that data
can only fail, leaving the record unchanged); the instruction's effect on
the `Vault` record depends on that data only through the resulting
`gav_usd` value, which this model therefore takes as a parameter.  When
`elapsed > 0 && management_fees > 0 && gav_usd > 0` the newly accrued fee
`((gav_usd * management_fees * elapsed) / (MAX_BPS * SECONDS_PER_YEAR)) as u64`
is added to `accrued_management_fees_usdc` (checked ops, unwrapped) and
`last_fee_accrual_ts` is set to `now`; otherwise the vault record is
unchanged.  The NAV/GAV breakdown it returns is read-only. -/
def getAccruedManagementFees (v : Vault) (now : Int) (gav_usd : Nat) :
    Except TxError Vault :=
  if v.last_fee_accrual_ts < now ∧ 0 < v.management_fees ∧ 0 < gav_usd then
    if U128_MOD ≤ gav_usd * v.management_fees then .error .panic
    else if U128_MOD ≤ gav_usd * v.management_fees * (now - v.last_fee_accrual_ts).toNat then
      .error .panic
    else if 0 < gavAccruedAmount v now gav_usd then
      if ¬ (v.accrued_management_fees_usdc + gavAccruedAmount v now gav_usd < U64_MOD) then
        .error .panic
      else
        .ok { v with
              accrued_management_fees_usdc :=
                v.accrued_management_fees_usdc + gavAccruedAmount v now gav_usd
              last_fee_accrual_ts := now }
    else .ok { v with last_fee_accrual_ts := now }
  else .ok v

/-! ## The exposed instruction surface (`lib.rs`) acting on one vault

Each constructor carries the instruction's inputs that are not part of the
vault record itself.  Instructions that never write any field of an
existing `Vault` record (`update_factory_admin`, `initialize_factory`,
`create_vault` — which initializes a fresh record, `update_factory_fees`,
the read-only getters, `execute_swaps`, `transfer_vault_to_user`,
`withdraw_underlying_to_user` — all of which move only external token
balances) leave the vault unchanged. -/
inductive Instr where
  | updateFactoryAdmin
  | initializeFactory (adminKey feeRecipientKey e x c mn mx cr pr : Nat)
  | createVault (factory : Factory) (adminKey : Nat) (now : Int)
      (name symbol : String) (assets : List UnderlyingAsset) (fees : Nat)
  | updateFactoryFees (factory : Factory) (e x c mn mx cr pr : Nat)
  | getFactoryInfo
  | deposit (factory : Factory) (mintDecimals : Nat) (now : Int) (amount price : Nat)
  | getDepositDetails
  | executeSwaps
  | transferVaultToUser
  | withdrawUnderlyingToUser
  | finalizeRedeem (factory : Factory) (mintDecimals userBal vaultBal : Nat)
      (now : Int) (amt price : Nat)
  | setVaultPaused (paused : Bool)
  | getVaultFees
  | collectWeeklyManagementFees (factory : Factory) (now : Int)
  | getAccruedManagementFees (now : Int) (gav : Nat)
  | distributeAccruedFees (factory : Factory) (mintDecimals : Nat) (price amt : Nat)
  | claimManagementFee (factory : Factory) (mintDecimals : Nat) (price amt : Nat)

/-- The vault record after running one instruction: on success the new
record, on any error or panic the ledger discards the transaction and the
record is unchanged. -/
def applyInstr (i : Instr) (v : Vault) : Vault :=
  match i with
  | .updateFactoryAdmin => v
  | .initializeFactory _ _ _ _ _ _ _ _ _ => v
  | .createVault _ _ _ _ _ _ _ => v
  | .updateFactoryFees _ _ _ _ _ _ _ _ => v
  | .getFactoryInfo => v
  | .deposit f d now a p =>
    match deposit f v d now a p with
    | .ok r => r.vault
    | .error _ => v
  | .getDepositDetails => v
  | .executeSwaps => v
  | .transferVaultToUser => v
  | .withdrawUnderlyingToUser => v
  | .finalizeRedeem f d ub vb now a p =>
    match finalizeRedeem f v d ub vb now a p with
    | .ok r => r.vault
    | .error _ => v
  | .setVaultPaused paused =>
    match setVaultPaused v paused with
    | .ok v' => v'
    | .error _ => v
  | .getVaultFees => v
  | .collectWeeklyManagementFees f now =>
    match collectWeeklyManagementFees f v now with
    | .ok r => r.vault
    | .error _ => v
  | .getAccruedManagementFees now gav =>
    match getAccruedManagementFees v now gav with
    | .ok v' => v'
    | .error _ => v
  | .distributeAccruedFees f d p a =>
    match distributeAccruedFees f v d p a with
    | .ok r => r.vault
    | .error _ => v
  | .claimManagementFee f d p a =>
    match claimManagementFee f v d p a with
    | .ok r => r.vault
    | .error _ => v

/-! ## Concrete test fixtures used by witnesses and counterexamples -/

/-- A factory as produced by `initialize_factory` with the default fee
policy (25 bps entry/exit, 50–300 bps management-fee range, 70/30 split). -/
def testFactory : Factory where
  admin := 1
  fee_recipient := 2
  vault_count := 1
  state := FactoryState.Active
  entry_fee_bps := 25
  exit_fee_bps := 25
  vault_creation_fee_usdc := 10000000
  min_management_fee_bps := 50
  max_management_fee_bps := 300
  vault_creator_fee_ratio_bps := 7000
  platform_fee_ratio_bps := 3000

/-- A vault as produced by `create_vault` at time `0` (seed supply
`1_000_000`, management fee 100 bps). -/
def testVault : Vault where
  vault_index := 0
  admin := 1
  vault_name := "V"
  vault_symbol := "V"
  underlying_assets := [{ mint_address := 9, mint_bps := 10000 }]
  management_fees := 100
  state := VaultState.Active
  total_assets := 0
  total_supply := 1000000
  created_at := 0
  last_fee_accrual_ts := 0
  accrued_management_fees_usdc := 0

/-! ## Helper lemmas -/

lemma accruedAmount_eq_zero_of_le {v : Vault} {now : Int}
    (h : now ≤ v.last_fee_accrual_ts) : accruedAmount v now = 0 := by
  unfold accruedAmount u64cast
  have ht : (now - v.last_fee_accrual_ts).toNat = 0 := by omega
  simp [ht]

lemma accrue_ok_state {v : Vault} {now : Int} {w : Vault}
    (h : accrueManagementFees v now = .ok w) :
    w.state = v.state ∧ w.total_supply = v.total_supply := by
  unfold accrueManagementFees at h
  repeat' split at h
  all_goals first
  | (injection h with h; subst h; exact ⟨rfl, rfl⟩)
  | (exact Except.noConfusion h)

/-! ## Claim theorems -/

/-- C1 (counterexample): with `total_assets = 100`, a 2000 bps annual fee and
ten years elapsed, the computed fee is `200 > 0` and exceeds `total_assets`,
yet `accrue_management_fees` leaves `total_assets` at `100` — not at `0` as
the claim's "saturating at zero" asserts (the code's
`checked_sub(..).unwrap_or(total_assets)` falls back to the *old* value). -/
theorem C1_counterexample :
    accruedAmount { testVault with total_assets := 100, management_fees := 2000 } 315360000 = 200 ∧
    (100 : Nat) < 200 ∧
    accrueManagementFees { testVault with total_assets := 100, management_fees := 2000 } 315360000 =
      .ok { testVault with
            total_assets := 100
            management_fees := 2000
            last_fee_accrual_ts := 315360000
            accrued_management_fees_usdc := 200 } ∧
    ¬ (100 : Nat) = 0 :=
  ⟨by decide, by decide, rfl, by decide⟩

/-- C1 (amended): whenever management-fee accrual succeeds and the computed
fee `accrued` is positive, `total_assets` decreases by `accrued` when
`accrued ≤ total_assets` and is left **unchanged** (not clamped to zero) when
`accrued` exceeds `total_assets` — never an underflow abort — and
`accrued_management_fees_usdc` increases by `accrued` (left unchanged if that
u64 addition would overflow). -/
theorem C1_accrual_update (v : Vault) (now : Int) (w : Vault)
    (h : accrueManagementFees v now = .ok w) (hpos : 0 < accruedAmount v now) :
    (accruedAmount v now ≤ v.total_assets →
      w.total_assets = v.total_assets - accruedAmount v now) ∧
    (v.total_assets < accruedAmount v now → w.total_assets = v.total_assets) ∧
    (v.accrued_management_fees_usdc + accruedAmount v now < U64_MOD →
      w.accrued_management_fees_usdc =
        v.accrued_management_fees_usdc + accruedAmount v now) ∧
    (U64_MOD ≤ v.accrued_management_fees_usdc + accruedAmount v now →
      w.accrued_management_fees_usdc = v.accrued_management_fees_usdc) := by
  unfold accrueManagementFees at h
  split at h
  · exact absurd hpos (by simp [accruedAmount_eq_zero_of_le (by assumption)])
  · split at h
    · rename_i hgt hle
      exact absurd hpos (by simp [accruedAmount_eq_zero_of_le (by omega)])
    · split at h
      · rename_i hz
        exfalso
        rcases hz with hz | hz <;> simp [accruedAmount, u64cast, hz] at hpos
      · split at h
        · exact Except.noConfusion h
        · split at h
          · exact Except.noConfusion h
          · split at h
            · rename_i hA
              split at h
              · rename_i hB
                injection h with h
                subst h
                exact ⟨fun _ => rfl, fun hlt => absurd hlt (Nat.not_lt.mpr hA),
                  fun _ => rfl, fun hge => absurd hge (Nat.not_le.mpr hB)⟩
              · rename_i hB
                injection h with h
                subst h
                exact ⟨fun _ => rfl, fun hlt => absurd hlt (Nat.not_lt.mpr hA),
                  fun hlt2 => absurd hlt2 hB, fun _ => rfl⟩
            · rename_i hA
              split at h
              · rename_i hB
                injection h with h
                subst h
                exact ⟨fun hle => absurd hle hA, fun _ => rfl,
                  fun _ => rfl, fun hge => absurd hge (Nat.not_le.mpr hB)⟩
              · rename_i hB
                injection h with h
                subst h
                exact ⟨fun hle => absurd hle hA, fun _ => rfl,
                  fun hlt2 => absurd hlt2 hB, fun _ => rfl⟩

/-- C1 (witness): a concrete accrual (1000000 USDC-units fee on 10^12 assets
over one year at 100 bps is 10^10) applying `C1_accrual_update`. -/
theorem C1_witness :
    accrueManagementFees { testVault with total_assets := 1000000000000 } 31536000 =
      .ok { testVault with
            total_assets := 990000000000
            last_fee_accrual_ts := 31536000
            accrued_management_fees_usdc := 10000000000 } ∧
    ({ testVault with
        total_assets := 990000000000
        last_fee_accrual_ts := 31536000
        accrued_management_fees_usdc := 10000000000 } : Vault).total_assets =
      1000000000000 -
        accruedAmount { testVault with total_assets := 1000000000000 } 31536000 :=
  ⟨rfl,
    (C1_accrual_update { testVault with total_assets := 1000000000000 } 31536000
      { testVault with
        total_assets := 990000000000
        last_fee_accrual_ts := 31536000
        accrued_management_fees_usdc := 10000000000 }
      rfl (by decide)).1 (by decide)⟩

/-- C2: with entry/exit fees of 25 bps and a 6-decimals share mint,
depositing 1,000,000,000 at price 1,000,000 charges entry fee 2,500,000,
nets 997,500,000 and mints 997,500,000 shares; immediately redeeming those
997,500,000 shares at the same price grosses 997,500,000, charges exit fee
2,493,750 and pays the user 995,006,250. -/
theorem C2_scenario :
    deposit testFactory testVault 6 0 1000000000 1000000 =
      .ok { vault := { testVault with total_assets := 997500000, total_supply := 998500000 }
            entry_fee := 2500000
            deposit_amount_after_fees := 997500000
            vault_tokens_to_mint := 997500000 } ∧
    finalizeRedeem testFactory
        { testVault with total_assets := 997500000, total_supply := 998500000 }
        6 997500000 997500000 0 997500000 1000000 =
      .ok { vault := testVault
            user_share_usdc := 997500000
            exit_fee := 2493750
            net_to_user := 995006250 } :=
  ⟨rfl, rfl⟩

/-- C7 (counterexample): with `total_assets = u64::MAX`, a 2000 bps fee and
about 3·10^8 years elapsed (`elapsed > 0`), the u128 fee-numerator
multiplication overflows, `accrue_management_fees` aborts with
`InvalidAmount`, and `last_fee_accrual_ts` is *not* set — against the
claim's "set to the current time unconditionally". -/
theorem C7_counterexample :
    ({ testVault with total_assets := 18446744073709551615, management_fees := 2000 } : Vault).last_fee_accrual_ts < 10000000000000000 ∧
    accrueManagementFees
        { testVault with total_assets := 18446744073709551615, management_fees := 2000 }
        10000000000000000 =
      .error (.code .InvalidAmount) :=
  ⟨by decide, rfl⟩

/-- C7 (amended): whenever management-fee accrual *returns successfully*,
`last_fee_accrual_ts` is set to `now` if time elapsed (also when the
computed fee is 0, e.g. zero fee rate or zero assets), and the vault is
completely unchanged when `elapsed ≤ 0`; on arithmetic overflow the whole
operation errors and no state changes. -/
theorem C7_accrual_timestamp (v : Vault) (now : Int) (w : Vault)
    (h : accrueManagementFees v now = .ok w) :
    (v.last_fee_accrual_ts < now → w.last_fee_accrual_ts = now) ∧
    (now ≤ v.last_fee_accrual_ts → w = v) := by
  unfold accrueManagementFees at h
  split at h
  · rename_i hle
    injection h with h
    subst h
    exact ⟨fun hts => absurd hts (by omega), fun _ => rfl⟩
  · rename_i hgt
    split at h
    · rename_i hle2
      exact absurd hle2 (by omega)
    · split at h
      · injection h with h
        subst h
        exact ⟨fun _ => rfl, fun hts => absurd hts hgt⟩
      · split at h
        · exact Except.noConfusion h
        · split at h
          · exact Except.noConfusion h
          · split at h
            · injection h with h
              subst h
              exact ⟨fun _ => rfl, fun hts => absurd hts hgt⟩
            · injection h with h
              subst h
              exact ⟨fun _ => rfl, fun hts => absurd hts hgt⟩

/-- C7 (witness): accruing on `testVault` (zero assets) at time 5 moves only
the timestamp; applying `C7_accrual_timestamp`. -/
theorem C7_witness :
    testVault.last_fee_accrual_ts < 5 ∧
    accrueManagementFees testVault 5 = .ok { testVault with last_fee_accrual_ts := 5 } ∧
    ({ testVault with last_fee_accrual_ts := 5 } : Vault).last_fee_accrual_ts = 5 :=
  ⟨by decide, rfl,
    (C7_accrual_timestamp testVault 5 { testVault with last_fee_accrual_ts := 5 } rfl).1
      (by decide)⟩

/-- C8: `set_vault_paused` with `paused = true` succeeds from any state
except `Closed` (a no-op re-pause when already `Paused`), errors on
`Closed`; with `paused = false` it errors unless the state is `Paused`, in
which case the state becomes `Active`. -/
theorem C8_pause_toggle (v : Vault) :
    (¬ v.state = VaultState.Closed →
      setVaultPaused v true = .ok { v with state := VaultState.Paused }) ∧
    (v.state = VaultState.Closed →
      setVaultPaused v true = .error (.code .VaultNotActive)) ∧
    (v.state = VaultState.Paused →
      setVaultPaused v false = .ok { v with state := VaultState.Active }) ∧
    (¬ v.state = VaultState.Paused →
      setVaultPaused v false = .error (.code .FactoryNotActive)) := by
  obtain ⟨i, a, nm, sy, ua, mf, st, ta, ts, ca, lt, am⟩ := v
  cases st <;> simp [setVaultPaused]

/-- C8 (witness): pausing the Active `testVault` via `C8_pause_toggle`. -/
theorem C8_witness :
    ¬ testVault.state = VaultState.Closed ∧
    setVaultPaused testVault true = .ok { testVault with state := VaultState.Paused } :=
  ⟨by decide, (C8_pause_toggle testVault).1 (by decide)⟩

set_option maxHeartbeats 1000000 in
/-- C10: `create_vault` charges the default creation fee of 10,000,000 raw
units when the factory's configured `vault_creation_fee_usdc` is 0, and
exactly the configured amount otherwise. -/
theorem C10_creation_fee (factory : Factory) (adminKey : Nat) (now : Int)
    (name symbol : String) (assets : List UnderlyingAsset) (fees : Nat)
    (f' : Factory) (v : Vault) (fee : Nat)
    (h : createVault factory adminKey now name symbol assets fees = .ok (f', v, fee)) :
    DEFAULT_VAULT_CREATION_FEE_USDC = 10000000 ∧
    (factory.vault_creation_fee_usdc = 0 → fee = 10000000) ∧
    (¬ factory.vault_creation_fee_usdc = 0 → fee = factory.vault_creation_fee_usdc) := by
  unfold createVault at h
  split at h
  · exact Except.noConfusion h
  · split at h
    · exact Except.noConfusion h
    · split at h
      · exact Except.noConfusion h
      · split at h
        · exact Except.noConfusion h
        · split at h
          · exact Except.noConfusion h
          · split at h
            · exact Except.noConfusion h
            · split at h
              · exact Except.noConfusion h
              · split at h
                · exact Except.noConfusion h
                · split at h
                  · exact Except.noConfusion h
                  · injection h with h
                    injection h with h1 h23
                    injection h23 with h2 h3
                    subst h3
                    refine ⟨rfl, fun hc => ?_, fun hc => ?_⟩ <;>
                      simp [hc, DEFAULT_VAULT_CREATION_FEE_USDC]

/-- C10 (witness): a factory configured with creation fee 0 charges
10,000,000, via `C10_creation_fee` at a concrete successful creation. -/
theorem C10_witness :
    createVault { testFactory with vault_creation_fee_usdc := 0 } 5 0 "A" "A"
        [{ mint_address := 9, mint_bps := 10000 }] 100 =
      .ok ({ testFactory with vault_creation_fee_usdc := 0, vault_count := 2 },
           { vault_index := 1
             admin := 5
             vault_name := "A"
             vault_symbol := "A"
             underlying_assets := [{ mint_address := 9, mint_bps := 10000 }]
             management_fees := 100
             state := VaultState.Active
             total_assets := 0
             total_supply := 1000000
             created_at := 0
             last_fee_accrual_ts := 0
             accrued_management_fees_usdc := 0 },
           10000000) ∧
    (10000000 : Nat) = 10000000 :=
  ⟨rfl,
    (C10_creation_fee { testFactory with vault_creation_fee_usdc := 0 } 5 0 "A" "A"
      [{ mint_address := 9, mint_bps := 10000 }] 100
      { testFactory with vault_creation_fee_usdc := 0, vault_count := 2 }
      { vault_index := 1
        admin := 5
        vault_name := "A"
        vault_symbol := "A"
        underlying_assets := [{ mint_address := 9, mint_bps := 10000 }]
        management_fees := 100
        state := VaultState.Active
        total_assets := 0
        total_supply := 1000000
        created_at := 0
        last_fee_accrual_ts := 0
        accrued_management_fees_usdc := 0 }
      10000000 rfl).2.1 rfl⟩

end VaultMvp

namespace VaultMvp

lemma updateFactoryFees_ok_sum {f : Factory} {e x c mn mx cr pr : Nat} {g : Factory}
    (h : updateFactoryFees f e x c mn mx cr pr = .ok g) : cr + pr = 10000 := by
  unfold updateFactoryFees at h
  split at h
  · exact Except.noConfusion h
  · split at h
    · exact Except.noConfusion h
    · split at h
      · exact Except.noConfusion h
      · split at h
        · exact Except.noConfusion h
        · split at h
          · exact Except.noConfusion h
          · split at h
            · exact Except.noConfusion h
            · rename_i hsum hpos
              simpa [MAX_BPS] using Decidable.not_not.mp hsum

lemma initializeFactory_ok_sum {a fr e x c mn mx cr pr : Nat} {g : Factory}
    (h : initializeFactory a fr e x c mn mx cr pr = .ok g) : cr + pr = 10000 := by
  unfold initializeFactory at h
  split at h
  · exact Except.noConfusion h
  · split at h
    · exact Except.noConfusion h
    · split at h
      · exact Except.noConfusion h
      · split at h
        · exact Except.noConfusion h
        · split at h
          · exact Except.noConfusion h
          · split at h
            · exact Except.noConfusion h
            · rename_i hsum hpos
              simpa [MAX_BPS] using Decidable.not_not.mp hsum

/-- C3: `initialize_factory` and `update_factory_fees` succeed only when
`vault_creator_fee_ratio_bps + platform_fee_ratio_bps` is exactly 10,000;
for every pair whose sum differs, both instructions fail (an explicit
`InvalidFeeRange`, or an overflow abort when the u16 sum wraps past 2^16)
and the stored factory record is unchanged. -/
theorem C3_ratio_sum (f : Factory) (a fr e x c mn mx cr pr : Nat) :
    ((∃ g, initializeFactory a fr e x c mn mx cr pr = .ok g) → cr + pr = 10000) ∧
    ((∃ g, updateFactoryFees f e x c mn mx cr pr = .ok g) → cr + pr = 10000) ∧
    (¬ cr + pr = 10000 →
      (∀ g, ¬ initializeFactory a fr e x c mn mx cr pr = .ok g) ∧
      (∀ g, ¬ updateFactoryFees f e x c mn mx cr pr = .ok g) ∧
      updateFactoryFeesApply f e x c mn mx cr pr = f) := by
  refine ⟨fun ⟨g, hg⟩ => initializeFactory_ok_sum hg,
    fun ⟨g, hg⟩ => updateFactoryFees_ok_sum hg,
    fun hne => ⟨fun g hg => hne (initializeFactory_ok_sum hg),
      fun g hg => hne (updateFactoryFees_ok_sum hg), ?_⟩⟩
  unfold updateFactoryFeesApply
  cases hres : updateFactoryFees f e x c mn mx cr pr with
  | ok g => exact absurd (updateFactoryFees_ok_sum hres) hne
  | error err => rfl

/-- C3 (witness): ratio arguments `7000/2000` (sum 9000) are rejected and
leave `testFactory` unchanged, via `C3_ratio_sum`. -/
theorem C3_witness :
    ¬ (7000 : Nat) + 2000 = 10000 ∧
    (∀ g, ¬ updateFactoryFees testFactory 25 25 0 50 300 7000 2000 = .ok g) ∧
    updateFactoryFeesApply testFactory 25 25 0 50 300 7000 2000 = testFactory :=
  ⟨by decide,
    ((C3_ratio_sum testFactory 1 2 25 25 0 50 300 7000 2000).2.2 (by decide)).2.1,
    ((C3_ratio_sum testFactory 1 2 25 25 0 50 300 7000 2000).2.2 (by decide)).2.2⟩


lemma deposit_ok_inv {factory : Factory} {v0 : Vault} {dec : Nat} {now : Int}
    {amount price : Nat} {r : DepositResult}
    (h : deposit factory v0 dec now amount price = .ok r) :
    ∃ v, accrueManagementFees v0 now = .ok v ∧ v.state = VaultState.Active ∧
      0 < amount ∧ factory.state = FactoryState.Active ∧
      amount * factory.entry_fee_bps < U128_MOD ∧
      r.entry_fee = entryFeeAmount factory amount ∧
      r.entry_fee ≤ amount ∧
      r.deposit_amount_after_fees = depositNet factory amount ∧
      10 ^ dec < U128_MOD ∧
      r.vault_tokens_to_mint = depositMint factory dec amount price ∧
      r.vault = { v with
        total_assets := v.total_assets + depositNet factory amount
        total_supply := v.total_supply + depositMint factory dec amount price } ∧
      v.total_assets + depositNet factory amount < U64_MOD ∧
      v.total_supply + depositMint factory dec amount price < U64_MOD := by
  unfold deposit at h
  split at h
  · exact Except.noConfusion h
  · rename_i v heq
    refine ⟨v, heq, ?_⟩
    split at h
    · exact Except.noConfusion h
    · split at h
      · exact Except.noConfusion h
      · split at h
        · exact Except.noConfusion h
        · split at h
          · exact Except.noConfusion h
          · split at h
            · exact Except.noConfusion h
            · split at h
              · exact Except.noConfusion h
              · split at h
                · exact Except.noConfusion h
                · split at h
                  · exact Except.noConfusion h
                  · split at h
                    · exact Except.noConfusion h
                    · rename_i hst hpos hfst hmul hsub hsc hmm hta hts
                      injection h with h
                      subst h
                      exact ⟨Decidable.not_not.mp hst, Decidable.not_not.mp hpos,
                        Decidable.not_not.mp hfst, Nat.lt_of_not_le hmul,
                        rfl, Decidable.not_not.mp hsub, rfl,
                        Decidable.not_not.mp hsc, rfl, rfl,
                        Decidable.not_not.mp hta, Decidable.not_not.mp hts⟩

lemma finalizeRedeem_ok_inv {factory : Factory} {v0 : Vault} {dec ub vb : Nat} {now : Int}
    {amt price : Nat} {s : RedeemResult}
    (h : finalizeRedeem factory v0 dec ub vb now amt price = .ok s) :
    ∃ v, accrueManagementFees v0 now = .ok v ∧
      0 < amt ∧ v.state = VaultState.Active ∧ factory.state = FactoryState.Active ∧
      amt ≤ ub ∧ 0 < v.total_supply ∧ 10 ^ dec < U128_MOD ∧
      amt * price < U128_MOD ∧
      s.user_share_usdc = grossPayout dec amt price ∧
      s.exit_fee = exitFeeAmount factory (grossPayout dec amt price) ∧
      s.exit_fee ≤ s.user_share_usdc ∧
      s.net_to_user = grossPayout dec amt price - exitFeeAmount factory (grossPayout dec amt price) ∧
      s.net_to_user ≤ vb ∧
      amt ≤ v.total_supply ∧ s.user_share_usdc ≤ v.total_assets ∧
      s.vault = { v with
        total_supply := v.total_supply - amt
        total_assets := v.total_assets - grossPayout dec amt price } := by
  unfold finalizeRedeem at h
  split at h
  · exact Except.noConfusion h
  · rename_i v heq
    refine ⟨v, heq, ?_⟩
    rcases Decidable.em (0 < amt) with h1 | h1
    swap
    · rw [if_pos h1] at h; exact Except.noConfusion h
    rw [if_neg (not_not_intro h1)] at h
    rcases Decidable.em (v.state = VaultState.Active) with h2 | h2
    swap
    · rw [if_pos h2] at h; exact Except.noConfusion h
    rw [if_neg (not_not_intro h2)] at h
    rcases Decidable.em (factory.state = FactoryState.Active) with h3 | h3
    swap
    · rw [if_pos h3] at h; exact Except.noConfusion h
    rw [if_neg (not_not_intro h3)] at h
    rcases Decidable.em (amt ≤ ub) with h4 | h4
    swap
    · rw [if_pos h4] at h; exact Except.noConfusion h
    rw [if_neg (not_not_intro h4)] at h
    rcases Decidable.em (0 < v.total_supply) with h5 | h5
    swap
    · rw [if_pos h5] at h; exact Except.noConfusion h
    rw [if_neg (not_not_intro h5)] at h
    rcases Decidable.em (10 ^ dec < U128_MOD) with h6 | h6
    swap
    · rw [if_pos h6] at h; exact Except.noConfusion h
    rw [if_neg (not_not_intro h6)] at h
    rcases Decidable.em (U128_MOD ≤ amt * price) with h7 | h7
    · rw [if_pos h7] at h; exact Except.noConfusion h
    rw [if_neg h7] at h
    rcases Decidable.em (U128_MOD ≤ grossPayout dec amt price * factory.exit_fee_bps)
      with h8 | h8
    · rw [if_pos h8] at h; exact Except.noConfusion h
    rw [if_neg h8] at h
    rcases Decidable.em (exitFeeAmount factory (grossPayout dec amt price) ≤
        grossPayout dec amt price) with h9 | h9
    swap
    · rw [if_pos h9] at h; exact Except.noConfusion h
    rw [if_neg (not_not_intro h9)] at h
    rcases Decidable.em (grossPayout dec amt price -
        exitFeeAmount factory (grossPayout dec amt price) ≤ vb) with h10 | h10
    swap
    · rw [if_pos h10] at h; exact Except.noConfusion h
    rw [if_neg (not_not_intro h10)] at h
    rcases Decidable.em (amt ≤ v.total_supply) with h11 | h11
    swap
    · rw [if_pos h11] at h; exact Except.noConfusion h
    rw [if_neg (not_not_intro h11)] at h
    rcases Decidable.em (grossPayout dec amt price ≤ v.total_assets) with h12 | h12
    swap
    · rw [if_pos h12] at h; exact Except.noConfusion h
    rw [if_neg (not_not_intro h12)] at h
    injection h with h
    subst h
    exact ⟨h1, h2, h3, h4, h5, h6, Nat.lt_of_not_le h7, rfl, rfl, h9, rfl, h10, h11, h12, rfl⟩

end VaultMvp

namespace VaultMvp

/-- C4 (counterexample): a successful deposit of 2·10^13 at price 1 with a
6-decimals mint and 0 bps entry fee mints `(2·10^13 · 10^6 / 1) mod 2^64 =
1,553,255,926,290,448,384` shares, not the claimed
`floor(net · 10^decimals / price) = 2·10^19` — the Rust `as u64` cast
truncates the u128 quotient. -/
theorem C4_counterexample :
    deposit { testFactory with entry_fee_bps := 0 } testVault 6 0 20000000000000 1 =
      .ok { vault := { testVault with
              total_assets := 20000000000000
              total_supply := 1553255926291448384 }
            entry_fee := 0
            deposit_amount_after_fees := 20000000000000
            vault_tokens_to_mint := 1553255926290448384 } ∧
    20000000000000 * 10 ^ 6 / 1 = 20000000000000000000 ∧
    ¬ (1553255926290448384 : Nat) = 20000000000000000000 :=
  ⟨rfl, by decide, by decide⟩

/-- C4 (amended): on every successful `deposit(amount, share_price)` (with
`amount` in u64 range and the factory-invariant `entry_fee_bps ≤ 10000`),
`net = amount - floor(amount · entry_fee_bps / 10000)`, the shares minted
equal `net` when `share_price = 0` and `floor(net · 10^decimals /
share_price)` reduced mod 2^64 otherwise, and relative to the vault
state after the fee-accrual prologue, `total_assets` increases by exactly
`net` while `total_supply` increases by exactly the shares minted. -/
theorem C4_deposit_accounting (factory : Factory) (v0 w : Vault) (dec : Nat) (now : Int)
    (amount price : Nat) (r : DepositResult)
    (hacc : accrueManagementFees v0 now = .ok w)
    (hamt : amount < U64_MOD) (hbps : factory.entry_fee_bps ≤ MAX_BPS)
    (h : deposit factory v0 dec now amount price = .ok r) :
    r.deposit_amount_after_fees = amount - amount * factory.entry_fee_bps / MAX_BPS ∧
    r.vault_tokens_to_mint = (if price = 0 then r.deposit_amount_after_fees
      else u64cast (r.deposit_amount_after_fees * 10 ^ dec / price)) ∧
    r.vault.total_assets = w.total_assets + r.deposit_amount_after_fees ∧
    r.vault.total_supply = w.total_supply + r.vault_tokens_to_mint := by
  obtain ⟨v, hv, hs1, hs2, hs3, hs4, hef, hle, hnet, hs5, hmint, hvlt, hs6, hs7⟩ :=
    deposit_ok_inv h
  rw [hacc] at hv
  injection hv with hv
  subst hv
  have hdivle : amount * factory.entry_fee_bps / MAX_BPS ≤ amount := by
    apply Nat.div_le_of_le_mul
    rw [Nat.mul_comm amount factory.entry_fee_bps]
    exact Nat.mul_le_mul_right amount hbps
  have he : entryFeeAmount factory amount = amount * factory.entry_fee_bps / MAX_BPS := by
    unfold entryFeeAmount u64cast
    exact Nat.mod_eq_of_lt (lt_of_le_of_lt hdivle hamt)
  refine ⟨?_, ?_, ?_, ?_⟩
  · rw [hnet]
    unfold depositNet
    rw [he]
  · rw [hmint, hnet]
    rfl
  · simp [hvlt, hnet]
  · simp [hvlt, hmint]

/-- C4 (witness): the 25 bps / 1:1-price deposit of 10^9, via
`C4_deposit_accounting`. -/
theorem C4_witness :
    deposit testFactory testVault 6 0 1000000000 1000000 =
      .ok { vault := { testVault with total_assets := 997500000, total_supply := 998500000 }
            entry_fee := 2500000
            deposit_amount_after_fees := 997500000
            vault_tokens_to_mint := 997500000 } ∧
    ({ vault := { testVault with total_assets := 997500000, total_supply := 998500000 }
       entry_fee := 2500000
       deposit_amount_after_fees := 997500000
       vault_tokens_to_mint := 997500000 } : DepositResult).deposit_amount_after_fees =
      1000000000 - 1000000000 * testFactory.entry_fee_bps / MAX_BPS :=
  ⟨rfl,
    (C4_deposit_accounting testFactory testVault testVault 6 0 1000000000 1000000
      { vault := { testVault with total_assets := 997500000, total_supply := 998500000 }
        entry_fee := 2500000
        deposit_amount_after_fees := 997500000
        vault_tokens_to_mint := 997500000 }
      rfl (by decide) (by decide) rfl).1⟩

/-- C6: for every deposit of `amount > 0` at any `share_price` under
entry/exit fees ≤ 10000 bps, a successful immediate `finalize_redeem` of
exactly the shares minted by that deposit at the same `share_price` pays
out `net_to_user ≤ amount`: the round trip never returns more than was put
in. -/
theorem C6_round_trip (factory : Factory) (v0 : Vault) (dec : Nat) (now : Int)
    (amount price : Nat) (r : DepositResult)
    (v1 : Vault) (ub vb : Nat) (now2 : Int) (s : RedeemResult)
    (hamount : 0 < amount)
    (hentry : factory.entry_fee_bps ≤ MAX_BPS) (hexit : factory.exit_fee_bps ≤ MAX_BPS)
    (hdep : deposit factory v0 dec now amount price = .ok r)
    (hred : finalizeRedeem factory v1 dec ub vb now2 r.vault_tokens_to_mint price = .ok s) :
    s.net_to_user ≤ amount := by
  obtain ⟨v, hv, hs1, hs2, hs3, hs4, hef, hle, hnet, hs5, hmint, hvlt, hs6, hs7⟩ :=
    deposit_ok_inv hdep
  obtain ⟨u, hu, hr1, hr2, hr3, hr4, hr5, hr6, hr7, hgross, hxfee, hxle, hntu, hr8, hr9, hr10, hr11⟩ :=
    finalizeRedeem_ok_inv hred
  have hscale : 0 < (10 : Nat) ^ dec := Nat.pos_pow_of_pos dec (by decide)
  have h1 : s.net_to_user ≤ grossPayout dec r.vault_tokens_to_mint price := by
    rw [hntu]
    exact Nat.sub_le _ _
  have h2 : grossPayout dec r.vault_tokens_to_mint price ≤ depositNet factory amount := by
    unfold grossPayout u64cast
    rcases Decidable.em (price = 0) with hp | hp
    · subst hp
      simp
    · have hm : r.vault_tokens_to_mint ≤ depositNet factory amount * 10 ^ dec / price := by
        rw [hmint]
        unfold depositMint
        rw [if_neg hp]
        exact Nat.mod_le _ _
      calc (r.vault_tokens_to_mint * price / 10 ^ dec) % U64_MOD
          ≤ r.vault_tokens_to_mint * price / 10 ^ dec := Nat.mod_le _ _
        _ ≤ (depositNet factory amount * 10 ^ dec / price) * price / 10 ^ dec := by
            exact Nat.div_le_div_right (Nat.mul_le_mul_right _ hm)
        _ ≤ depositNet factory amount * 10 ^ dec / 10 ^ dec := by
            exact Nat.div_le_div_right (Nat.div_mul_le_self _ _)
        _ = depositNet factory amount := Nat.mul_div_cancel _ hscale
  have h3 : depositNet factory amount ≤ amount := Nat.sub_le _ _
  exact le_trans h1 (le_trans h2 h3)

/-- C6 (witness): the concrete 25 bps round trip of 10^9 pays out
995,006,250 ≤ 10^9, via `C6_round_trip`. -/
theorem C6_witness :
    (0 : Nat) < 1000000000 ∧
    ({ vault := testVault
       user_share_usdc := 997500000
       exit_fee := 2493750
       net_to_user := 995006250 } : RedeemResult).net_to_user ≤ 1000000000 :=
  ⟨by decide,
    C6_round_trip testFactory testVault 6 0 1000000000 1000000
      { vault := { testVault with total_assets := 997500000, total_supply := 998500000 }
        entry_fee := 2500000
        deposit_amount_after_fees := 997500000
        vault_tokens_to_mint := 997500000 }
      { testVault with total_assets := 997500000, total_supply := 998500000 }
      997500000 997500000 0
      { vault := testVault
        user_share_usdc := 997500000
        exit_fee := 2493750
        net_to_user := 995006250 }
      (by decide) (by decide) (by decide) rfl rfl⟩

end VaultMvp

namespace VaultMvp

lemma creatorShareOf_eq {factory : Factory} {total : Nat}
    (htot : total < U64_MOD) (hr : factory.vault_creator_fee_ratio_bps ≤ MAX_BPS) :
    creatorShareOf factory total = total * factory.vault_creator_fee_ratio_bps / MAX_BPS := by
  unfold creatorShareOf u64cast
  apply Nat.mod_eq_of_lt
  apply lt_of_le_of_lt _ htot
  apply Nat.div_le_of_le_mul
  rw [Nat.mul_comm total factory.vault_creator_fee_ratio_bps]
  exact Nat.mul_le_mul_right total hr

/-- C5: in both management-fee payout paths (weekly collection and
distribute-as-shares), the split of any total `t` (in u64 range, against
the factory-invariant ratio ≤ 10000) is
`creator = floor(t · vault_creator_fee_ratio_bps / 10000)` and
`platform = t - creator`, so `creator + platform = t` exactly with no
rounding leakage. -/
theorem C5_fee_split (factory : Factory) (v0 w : Vault) (now : Int) (col : CollectResult)
    (dv : Vault) (dec price amt : Nat) (dis : DistributeResult)
    (hr : factory.vault_creator_fee_ratio_bps ≤ MAX_BPS)
    (hacc : accrueManagementFees v0 now = .ok w)
    (hw : w.accrued_management_fees_usdc < U64_MOD)
    (hcol : collectWeeklyManagementFees factory v0 now = .ok col)
    (hamt : amt < U64_MOD)
    (hdis : distributeAccruedFees factory dv dec price amt = .ok dis) :
    (col.vault_creator_share + col.platform_share = w.accrued_management_fees_usdc ∧
     col.vault_creator_share =
       w.accrued_management_fees_usdc * factory.vault_creator_fee_ratio_bps / MAX_BPS) ∧
    (dis.vault_creator_share_usdc + dis.platform_share_usdc = amt ∧
     dis.vault_creator_share_usdc = amt * factory.vault_creator_fee_ratio_bps / MAX_BPS) := by
  constructor
  · unfold collectWeeklyManagementFees at hcol
    split at hcol
    · exact Except.noConfusion hcol
    · rename_i v heq
      rw [hacc] at heq
      injection heq with heq
      subst heq
      split at hcol
      · rename_i hz
        injection hcol with hcol
        subst hcol
        exact ⟨by simp [hz], by simp [hz]⟩
      · split at hcol
        · exact Except.noConfusion hcol
        · split at hcol
          · exact Except.noConfusion hcol
          · rename_i hnz hov hle
            injection hcol with hcol
            subst hcol
            exact ⟨Nat.add_sub_cancel' (Decidable.not_not.mp hle), creatorShareOf_eq hw hr⟩
  · unfold distributeAccruedFees at hdis
    split at hdis
    · exact Except.noConfusion hdis
    · split at hdis
      · exact Except.noConfusion hdis
      · split at hdis
        · exact Except.noConfusion hdis
        · rename_i hpos hov hle
          split at hdis
          · injection hdis with hdis
            subst hdis
            exact ⟨Nat.add_sub_cancel' (Decidable.not_not.mp hle), creatorShareOf_eq hamt hr⟩
          · split at hdis
            · exact Except.noConfusion hdis
            · split at hdis
              · exact Except.noConfusion hdis
              · rename_i ct hct
                split at hdis
                · exact Except.noConfusion hdis
                · rename_i pt hpt
                  split at hdis
                  · exact Except.noConfusion hdis
                  · split at hdis
                    · exact Except.noConfusion hdis
                    · injection hdis with hdis
                      subst hdis
                      exact ⟨Nat.add_sub_cancel' (Decidable.not_not.mp hle),
                        creatorShareOf_eq hamt hr⟩

/-- C5 (witness): total 1,000,000 at creator ratio 7000 bps splits into
700,000 / 300,000 summing exactly to 1,000,000 in the distribute-as-shares
path (and the weekly-collect path trivially on a zero-accrual vault), via
`C5_fee_split`. -/
theorem C5_witness :
    collectWeeklyManagementFees testFactory testVault 0 =
      .ok { vault := testVault, vault_creator_share := 0, platform_share := 0 } ∧
    distributeAccruedFees testFactory { testVault with total_assets := 1000000 } 6
        1000000 1000000 =
      .ok { vault := { testVault with total_assets := 1000000, total_supply := 2000000 }
            vault_creator_share_usdc := 700000
            platform_share_usdc := 300000
            vault_creator_share_tokens := 700000
            platform_share_tokens := 300000 } ∧
    (700000 : Nat) + 300000 = 1000000 ∧
    (700000 : Nat) = 1000000 * testFactory.vault_creator_fee_ratio_bps / MAX_BPS :=
  ⟨rfl, rfl,
    (C5_fee_split testFactory testVault testVault 0
      { vault := testVault, vault_creator_share := 0, platform_share := 0 }
      { testVault with total_assets := 1000000 } 6 1000000 1000000
      { vault := { testVault with total_assets := 1000000, total_supply := 2000000 }
        vault_creator_share_usdc := 700000
        platform_share_usdc := 300000
        vault_creator_share_tokens := 700000
        platform_share_tokens := 300000 }
      (by decide) rfl (by decide) rfl (by decide) rfl).2.1,
    (C5_fee_split testFactory testVault testVault 0
      { vault := testVault, vault_creator_share := 0, platform_share := 0 }
      { testVault with total_assets := 1000000 } 6 1000000 1000000
      { vault := { testVault with total_assets := 1000000, total_supply := 2000000 }
        vault_creator_share_usdc := 700000
        platform_share_usdc := 300000
        vault_creator_share_tokens := 700000
        platform_share_tokens := 300000 }
      (by decide) rfl (by decide) rfl (by decide) rfl).2.2⟩

end VaultMvp

namespace VaultMvp

set_option maxHeartbeats 1000000 in
lemma createVault_ok_state {factory : Factory} {adminKey : Nat} {now : Int}
    {name symbol : String} {assets : List UnderlyingAsset} {fees : Nat}
    {f' : Factory} {v : Vault} {fee : Nat}
    (h : createVault factory adminKey now name symbol assets fees = .ok (f', v, fee)) :
    v.state = VaultState.Active := by
  unfold createVault at h
  split at h
  · exact Except.noConfusion h
  · split at h
    · exact Except.noConfusion h
    · split at h
      · exact Except.noConfusion h
      · split at h
        · exact Except.noConfusion h
        · split at h
          · exact Except.noConfusion h
          · split at h
            · exact Except.noConfusion h
            · split at h
              · exact Except.noConfusion h
              · split at h
                · exact Except.noConfusion h
                · split at h
                  · exact Except.noConfusion h
                  · injection h with h
                    injection h with h1 h23
                    injection h23 with h2 h3
                    subst h2
                    rfl

lemma collect_ok_state {factory : Factory} {v0 : Vault} {now : Int} {c : CollectResult}
    (h : collectWeeklyManagementFees factory v0 now = .ok c) :
    c.vault.state = v0.state := by
  unfold collectWeeklyManagementFees at h
  split at h
  · exact Except.noConfusion h
  · rename_i v heq
    have hs := (accrue_ok_state heq).1
    split at h
    · injection h with h
      subst h
      exact hs
    · split at h
      · exact Except.noConfusion h
      · split at h
        · exact Except.noConfusion h
        · injection h with h
          subst h
          exact hs

lemma distribute_ok_state {factory : Factory} {v : Vault} {dec price amt : Nat}
    {d : DistributeResult}
    (h : distributeAccruedFees factory v dec price amt = .ok d) :
    d.vault.state = v.state := by
  unfold distributeAccruedFees at h
  split at h
  · exact Except.noConfusion h
  · split at h
    · exact Except.noConfusion h
    · split at h
      · exact Except.noConfusion h
      · split at h
        · injection h with h
          subst h
          rfl
        · split at h
          · exact Except.noConfusion h
          · split at h
            · exact Except.noConfusion h
            · rename_i ct hct
              split at h
              · exact Except.noConfusion h
              · rename_i pt hpt
                split at h
                · exact Except.noConfusion h
                · split at h
                  · exact Except.noConfusion h
                  · injection h with h
                    subst h
                    rfl

lemma claim_ok_state {factory : Factory} {v : Vault} {dec price amt : Nat}
    {d : DistributeResult}
    (h : claimManagementFee factory v dec price amt = .ok d) :
    d.vault.state = v.state := by
  unfold claimManagementFee at h
  split at h
  · exact Except.noConfusion h
  · split at h
    · exact Except.noConfusion h
    · split at h
      · exact Except.noConfusion h
      · split at h
        · injection h with h
          subst h
          rfl
        · split at h
          · exact Except.noConfusion h
          · split at h
            · exact Except.noConfusion h
            · rename_i ct hct
              split at h
              · exact Except.noConfusion h
              · rename_i pt hpt
                split at h
                · exact Except.noConfusion h
                · split at h
                  · exact Except.noConfusion h
                  · injection h with h
                    subst h
                    rfl

lemma getAccrued_ok_state {v : Vault} {now : Int} {gav : Nat} {w : Vault}
    (h : getAccruedManagementFees v now gav = .ok w) :
    w.state = v.state := by
  unfold getAccruedManagementFees at h
  split at h
  · split at h
    · exact Except.noConfusion h
    · split at h
      · exact Except.noConfusion h
      · split at h
        · split at h
          · exact Except.noConfusion h
          · injection h with h
            subst h
            rfl
        · injection h with h
          subst h
          rfl
  · injection h with h
    subst h
    rfl

lemma setVaultPaused_ok_state {v : Vault} {b : Bool} {w : Vault}
    (h : setVaultPaused v b = .ok w) :
    w.state = VaultState.Active ∨ w.state = VaultState.Paused := by
  unfold setVaultPaused at h
  split at h
  · split at h
    · exact Except.noConfusion h
    · split at h
      · injection h with h
        subst h
        exact Or.inr rfl
      · rename_i hnc hp
        injection h with h
        subst h
        exact Or.inr (Decidable.not_not.mp hp)
  · split at h
    · exact Except.noConfusion h
    · injection h with h
      subst h
      exact Or.inl rfl

lemma applyInstr_state (i : Instr) (v : Vault) :
    (applyInstr i v).state = v.state ∨ (applyInstr i v).state = VaultState.Active ∨
    (applyInstr i v).state = VaultState.Paused := by
  cases i <;> simp only [applyInstr]
  case updateFactoryAdmin => exact Or.inl trivial
  case initializeFactory a fr e x c mn mx cr pr => exact Or.inl trivial
  case createVault f a now nm sy as fs => exact Or.inl trivial
  case updateFactoryFees f e x c mn mx cr pr => exact Or.inl trivial
  case getFactoryInfo => exact Or.inl trivial
  case deposit f d now a p =>
    cases hop : deposit f v d now a p with
    | error e => exact Or.inl rfl
    | ok r =>
      obtain ⟨u, hu, hst, h3, h4, h5, h6, h7, h8, h9, h10, hvlt, h11, h12⟩ := deposit_ok_inv hop
      refine Or.inr (Or.inl ?_)
      show r.vault.state = VaultState.Active
      rw [hvlt]
      exact hst
  case getDepositDetails => exact Or.inl trivial
  case executeSwaps => exact Or.inl trivial
  case transferVaultToUser => exact Or.inl trivial
  case withdrawUnderlyingToUser => exact Or.inl trivial
  case finalizeRedeem f d ub vb now a p =>
    cases hop : finalizeRedeem f v d ub vb now a p with
    | error e => exact Or.inl rfl
    | ok s =>
      obtain ⟨u, hu, h1, hst, h3, h4, h5, h6, h7, h8, h9, h10, h11, h12, h13, h14, hvlt⟩ :=
        finalizeRedeem_ok_inv hop
      refine Or.inr (Or.inl ?_)
      show s.vault.state = VaultState.Active
      rw [hvlt]
      exact hst
  case setVaultPaused b =>
    cases hop : setVaultPaused v b with
    | error e => exact Or.inl rfl
    | ok w => exact Or.inr (setVaultPaused_ok_state hop)
  case getVaultFees => exact Or.inl trivial
  case collectWeeklyManagementFees f now =>
    cases hop : collectWeeklyManagementFees f v now with
    | error e => exact Or.inl rfl
    | ok c => exact Or.inl (collect_ok_state hop)
  case getAccruedManagementFees now gav =>
    cases hop : getAccruedManagementFees v now gav with
    | error e => exact Or.inl rfl
    | ok w => exact Or.inl (getAccrued_ok_state hop)
  case distributeAccruedFees f d p a =>
    cases hop : distributeAccruedFees f v d p a with
    | error e => exact Or.inl rfl
    | ok r => exact Or.inl (distribute_ok_state hop)
  case claimManagementFee f d p a =>
    cases hop : claimManagementFee f v d p a with
    | error e => exact Or.inl rfl
    | ok r => exact Or.inl (claim_ok_state hop)

/-- C9: the `Closed` state is unreachable — `create_vault` initializes
every vault in state `Active`, and no exposed instruction (modelled by
`Instr`/`applyInstr`, with failed transactions rolled back) moves a vault
whose state is not `Closed` into `Closed`. -/
theorem C9_closed_unreachable :
    (∀ (factory : Factory) (adminKey : Nat) (now : Int) (name symbol : String)
        (assets : List UnderlyingAsset) (fees : Nat) (f' : Factory) (v : Vault) (fee : Nat),
        createVault factory adminKey now name symbol assets fees = .ok (f', v, fee) →
        v.state = VaultState.Active) ∧
    (∀ (i : Instr) (v : Vault), ¬ v.state = VaultState.Closed →
        ¬ (applyInstr i v).state = VaultState.Closed) := by
  constructor
  · intro factory adminKey now name symbol assets fees f' v fee h
    exact createVault_ok_state h
  · intro i v hv
    rcases applyInstr_state i v with h | h | h <;> rw [h]
    · exact hv
    · exact fun hc => VaultState.noConfusion hc
    · exact fun hc => VaultState.noConfusion hc

/-- C9 (witness): pausing and depositing on the Active `testVault` never
yield `Closed`, via `C9_closed_unreachable`. -/
theorem C9_witness :
    ¬ testVault.state = VaultState.Closed ∧
    ¬ (applyInstr (Instr.setVaultPaused true) testVault).state = VaultState.Closed ∧
    ¬ (applyInstr (Instr.deposit testFactory 6 0 1000000000 1000000)
        testVault).state = VaultState.Closed :=
  ⟨by decide,
    (C9_closed_unreachable).2 (Instr.setVaultPaused true) testVault (by decide),
    (C9_closed_unreachable).2 (Instr.deposit testFactory 6 0 1000000000 1000000) testVault
      (by decide)⟩

end VaultMvp
